import Mathlib

/-!
Verification development for the Steam account checker core
(`src/unnamed/part_005` and `src/lib/steam-checker.ts`).

The TypeScript core is embedded shallowly: JavaScript string/JSON/base64
primitives are modelled as executable Lean functions, network calls are
modelled as oracle parameters (an `Env` record), and the wall clock is an
explicit parameter.  Machine numbers are modelled as `Int`/`Nat`
(JavaScript numbers in this code are integral Unix timestamps and counters).
-/

namespace SteamSpec

/-! ## JavaScript string primitives -/

/-- JavaScript whitespace (the `\s` class and `String.prototype.trim`),
modelled on the code points that can occur here: ASCII whitespace,
NBSP, the line separators and the BOM. -/
def isJsSpace (c : Char) : Bool :=
  c.toNat = 9 || c.toNat = 10 || c.toNat = 11 || c.toNat = 12 || c.toNat = 13 ||
  c.toNat = 32 || c.toNat = 160 || c.toNat = 0x2028 || c.toNat = 0x2029 ||
  c.toNat = 0xFEFF

/-- `String.prototype.trim` on a character list. -/
def trimL (l : List Char) : List Char :=
  ((l.dropWhile isJsSpace).reverse.dropWhile isJsSpace).reverse

/-- `String.prototype.trim`. -/
def jsTrim (s : String) : String := ⟨trimL s.data⟩

/-- `str.replace(/[^\d]/g, "")`: keep only ASCII digits. -/
def stripNonDigits (s : String) : String := ⟨s.data.filter Char.isDigit⟩

/-- `String.prototype.startsWith`. -/
def jsStartsWith (s pre : String) : Bool := pre.data.isPrefixOf s.data

/-- Decompose a list at the first occurrence of the separator
`s0 :: st`: returns the part before it and the part after it. -/
def splitFirst (s0 : Char) (st : List Char) : List Char → Option (List Char × List Char)
  | [] => none
  | c :: rest =>
    if (s0 :: st).isPrefixOf (c :: rest) then some ([], rest.drop st.length)
    else
      match splitFirst s0 st rest with
      | some (b, a) => some (c :: b, a)
      | none => none

/-- `String.prototype.includes` for a non-empty separator. -/
def jsIncludes (s sep : String) : Bool :=
  match sep.data with
  | [] => true
  | s0 :: st => (splitFirst s0 st s.data).isSome

/-- Fuel-driven worker for `String.prototype.split` (non-overlapping,
leftmost occurrences).  The fuel is an upper bound on the input length. -/
def jsSplitF (s0 : Char) (st : List Char) : Nat → List Char → List (List Char)
  | _, [] => [[]]
  | 0, l => [l]
  | fuel + 1, c :: rest =>
    if (s0 :: st).isPrefixOf (c :: rest) then
      [] :: jsSplitF s0 st fuel (rest.drop st.length)
    else
      match jsSplitF s0 st fuel rest with
      | [] => [[c]]
      | seg :: segs => (c :: seg) :: segs

/-- `String.prototype.split` with a non-empty separator. -/
def jsSplit (s sep : String) : List String :=
  match sep.data with
  | [] => [s]
  | s0 :: st => (jsSplitF s0 st s.data.length s.data).map fun l => (⟨l⟩ : String)

/-- The segment before the first separator occurrence, or the whole list
when the separator does not occur (the head of a JavaScript split). -/
def firstSeg (s0 : Char) (st : List Char) (l : List Char) : List Char :=
  match splitFirst s0 st l with
  | some (b, _) => b
  | none => l

/-- String-level wrapper of `splitFirst`. -/
def splitFirstStr (sep s : String) : Option (String × String) :=
  match sep.data with
  | [] => none
  | s0 :: st => (splitFirst s0 st s.data).map fun p => ((⟨p.1⟩ : String), (⟨p.2⟩ : String))

/-- String-level wrapper of `firstSeg`. -/
def firstSegStr (sep s : String) : String :=
  match sep.data with
  | [] => s
  | s0 :: st => ⟨firstSeg s0 st s.data⟩

/-- Try a matcher at every suffix, leftmost success first (the search
behaviour of an anchored-free JavaScript regex). -/
def scanFirst {α : Type} (f : List Char → Option α) : List Char → Option α
  | [] => none
  | c :: rest =>
    match f (c :: rest) with
    | some a => some a
    | none => scanFirst f rest

/-! ## JSON values and `JSON.parse`

`JSON.parse` in the source is applied to short decoded token payloads.
The model parses the JSON grammar with integer numerals (the payloads
carry integral Unix timestamps); a numeral with a fraction or exponent
part is rejected, sending the decoder into its recovery layers. -/

mutual

inductive Json where
  | str : String → Json
  | num : Int → Json
  | bool : Bool → Json
  | null : Json
  | arr : JsonList → Json
  | obj : JsonObj → Json

inductive JsonList where
  | nil : JsonList
  | cons : Json → JsonList → JsonList

inductive JsonObj where
  | nil : JsonObj
  | cons : String → Json → JsonObj → JsonObj

end

/-- Property access `o[k]` on a parsed JSON object: a duplicated key keeps
the last occurrence, as in JavaScript. -/
def lookupLast (k : String) : JsonObj → Option Json
  | JsonObj.nil => none
  | JsonObj.cons k1 v rest =>
    match lookupLast k rest with
    | some r => some r
    | none => if k1 = k then some v else none

/-- `payloadData[k]` for a dynamically typed payload: only objects have own
properties here. -/
def jsGet (j : Json) (k : String) : Option Json :=
  match j with
  | Json.obj fs => lookupLast k fs
  | _ => none

/-- JavaScript truthiness of a JSON value. -/
def jsTruthy : Json → Bool
  | Json.str s => s ≠ ""
  | Json.num n => n ≠ 0
  | Json.bool b => b
  | Json.null => false
  | Json.arr _ => true
  | Json.obj _ => true

mutual

/-- `String(v)` on a JSON value (array elements are joined with commas,
with `null` elements rendered empty, as `Array.prototype.toString` does). -/
def jsToString (j : Json) : String :=
  match j with
  | Json.str s => s
  | Json.num n => toString n
  | Json.bool b => if b then "true" else "false"
  | Json.null => "null"
  | Json.obj _ => "[object Object]"
  | Json.arr xs => jsToStringList xs
termination_by structural j

/-- Comma-joined rendering of array elements (`null` renders empty). -/
def jsToStringList (xs : JsonList) : String :=
  match xs with
  | JsonList.nil => ""
  | JsonList.cons Json.null JsonList.nil => ""
  | JsonList.cons x JsonList.nil => jsToString x
  | JsonList.cons Json.null rest => "," ++ jsToStringList rest
  | JsonList.cons x rest => jsToString x ++ "," ++ jsToStringList rest
termination_by structural xs

end

/-- JavaScript `ToNumber` on a trimmed integer numeral string
(`none` models `NaN`). -/
def jsStringToNumber (s : String) : Option Int :=
  let l := trimL s.data
  match l with
  | [] => some 0
  | '-' :: ds => if ds ≠ [] ∧ ds.all Char.isDigit then
      some (-(ds.foldl (fun a c => a * 10 + (c.toNat - 48)) 0 : Nat)) else none
  | '+' :: ds => if ds ≠ [] ∧ ds.all Char.isDigit then
      some ((ds.foldl (fun a c => a * 10 + (c.toNat - 48)) 0 : Nat)) else none
  | ds => if ds.all Char.isDigit then
      some ((ds.foldl (fun a c => a * 10 + (c.toNat - 48)) 0 : Nat)) else none

/-- JavaScript `ToNumber` of a JSON value (`none` models `NaN`; an array
converts through its comma-joined text, an object through
`[object Object]`, which is `NaN`). -/
def jsToNumber : Json → Option Int
  | Json.num n => some n
  | Json.str s => jsStringToNumber s
  | Json.bool b => some (if b then 1 else 0)
  | Json.null => some 0
  | Json.arr xs => jsStringToNumber (jsToStringList xs)
  | Json.obj _ => none

/-- The comparison `t > v` between a number and a dynamic value
(`false` when the value converts to `NaN`). -/
def jsGreaterNum (t : Int) (v : Json) : Bool :=
  match jsToNumber v with
  | some n => decide (t > n)
  | none => false

/-- JSON whitespace. -/
def isJsonWs (c : Char) : Bool :=
  c.toNat = 32 || c.toNat = 9 || c.toNat = 10 || c.toNat = 13

/-- Skip JSON whitespace. -/
def skipWs (l : List Char) : List Char := l.dropWhile isJsonWs

/-- Parse the body of a JSON string after its opening quote. -/
def parseJStrAux : List Char → Option (List Char × List Char)
  | [] => none
  | '"' :: r => some ([], r)
  | '\\' :: 'u' :: a :: b :: c :: d :: r =>
    if isHexDig a ∧ isHexDig b ∧ isHexDig c ∧ isHexDig d then
      match parseJStrAux r with
      | some (cs, rest) =>
        let code := hexVal a * 4096 + hexVal b * 256 + hexVal c * 16 + hexVal d
        some (Char.ofNat code :: cs, rest)
      | none => none
    else none
  | '\\' :: e :: r =>
    match escChar e with
    | some c =>
      match parseJStrAux r with
      | some (cs, rest) => some (c :: cs, rest)
      | none => none
    | none => none
  | c :: r =>
    if c.toNat < 32 then none
    else
      match parseJStrAux r with
      | some (cs, rest) => some (c :: cs, rest)
      | none => none
where
  isHexDig (c : Char) : Bool :=
    c.isDigit || (decide ('a' ≤ c) && decide (c ≤ 'f')) ||
      (decide ('A' ≤ c) && decide (c ≤ 'F'))
  hexVal (c : Char) : Nat :=
    if c.isDigit then c.toNat - 48
    else if 'a' ≤ c ∧ c ≤ 'f' then c.toNat - 97 + 10
    else if 'A' ≤ c ∧ c ≤ 'F' then c.toNat - 65 + 10
    else 0
  escChar : Char → Option Char
    | '"' => some '"'
    | '\\' => some '\\'
    | '/' => some '/'
    | 'b' => some (Char.ofNat 8)
    | 'f' => some (Char.ofNat 12)
    | 'n' => some (Char.ofNat 10)
    | 'r' => some (Char.ofNat 13)
    | 't' => some (Char.ofNat 9)
    | _ => none

/-- Parse a JSON string literal after the opening quote. -/
def parseJString (l : List Char) : Option (String × List Char) :=
  (parseJStrAux l).map fun p => ((⟨p.1⟩ : String), p.2)

/-- Parse a JSON integer numeral (fractions and exponents rejected). -/
def parseNum (l : List Char) : Option (Json × List Char) :=
  match l with
  | '-' :: r =>
    match parsePos r with
    | some (n, rest) => some (Json.num (-(n : Int)), rest)
    | none => none
  | _ =>
    match parsePos l with
    | some (n, rest) => some (Json.num (n : Int), rest)
    | none => none
where
  parsePos (l : List Char) : Option (Nat × List Char) :=
    match l with
    | '0' :: rest =>
      match rest with
      | c :: _ => if c.isDigit ∨ c = '.' ∨ c = 'e' ∨ c = 'E' then none else some (0, rest)
      | [] => some (0, [])
    | c :: _ =>
      if c.isDigit then
        let ds := l.takeWhile Char.isDigit
        let rest := l.drop ds.length
        match rest with
        | c2 :: _ => if c2 = '.' ∨ c2 = 'e' ∨ c2 = 'E' then none else
            some (ds.foldl (fun a d => a * 10 + (d.toNat - 48)) 0, rest)
        | [] => some (ds.foldl (fun a d => a * 10 + (d.toNat - 48)) 0, [])
      else none
    | [] => none

mutual

/-- Recursive-descent JSON value; the fuel bounds nesting depth. -/
def parseVal (fuel : Nat) (l : List Char) : Option (Json × List Char) :=
  match fuel, l with
  | 0, _ => none
  | fuel + 1, l =>
    match skipWs l with
    | '"' :: rest => (parseJString rest).map fun p => (Json.str p.1, p.2)
    | '\x7b' :: rest =>
      match skipWs rest with
      | '\x7d' :: r2 => some (Json.obj JsonObj.nil, r2)
      | r1 => (parseMembers fuel r1).map fun p => (Json.obj p.1, p.2)
    | '[' :: rest =>
      match skipWs rest with
      | ']' :: r2 => some (Json.arr JsonList.nil, r2)
      | r1 => (parseElems fuel r1).map fun p => (Json.arr p.1, p.2)
    | 't' :: 'r' :: 'u' :: 'e' :: r => some (Json.bool true, r)
    | 'f' :: 'a' :: 'l' :: 's' :: 'e' :: r => some (Json.bool false, r)
    | 'n' :: 'u' :: 'l' :: 'l' :: r => some (Json.null, r)
    | l1 => parseNum l1
termination_by structural fuel

/-- Members of a JSON object after its opening brace. -/
def parseMembers (fuel : Nat) (l : List Char) : Option (JsonObj × List Char) :=
  match fuel, l with
  | 0, _ => none
  | fuel + 1, l =>
    match skipWs l with
    | '"' :: rest =>
      match parseJString rest with
      | some (k, r1) =>
        match skipWs r1 with
        | ':' :: r2 =>
          match parseVal fuel r2 with
          | some (v, r3) =>
            match skipWs r3 with
            | ',' :: r4 =>
              (parseMembers fuel r4).map fun p => (JsonObj.cons k v p.1, p.2)
            | '\x7d' :: r4 => some (JsonObj.cons k v JsonObj.nil, r4)
            | _ => none
          | none => none
        | _ => none
      | none => none
    | _ => none
termination_by structural fuel

/-- Elements of a JSON array after its opening bracket. -/
def parseElems (fuel : Nat) (l : List Char) : Option (JsonList × List Char) :=
  match fuel, l with
  | 0, _ => none
  | fuel + 1, l =>
    match parseVal fuel l with
    | some (v, r1) =>
      match skipWs r1 with
      | ',' :: r2 => (parseElems fuel r2).map fun p => (JsonList.cons v p.1, p.2)
      | ']' :: r2 => some (JsonList.cons v JsonList.nil, r2)
      | _ => none
    | none => none
termination_by structural fuel

end

/-- `JSON.parse`, returning `none` where JavaScript would throw. -/
def jsonParse (s : String) : Option Json :=
  match parseVal (s.data.length + 1) s.data with
  | some (v, r) => if skipWs r = [] then some v else none
  | none => none

/-! ## `atob` (forgiving base64 decode) -/

/-- The index of a character in the base64 alphabet. -/
def b64Val (c : Char) : Option Nat :=
  let n := c.toNat
  if 65 ≤ n ∧ n ≤ 90 then some (n - 65)
  else if 97 ≤ n ∧ n ≤ 122 then some (n - 97 + 26)
  else if 48 ≤ n ∧ n ≤ 57 then some (n - 48 + 52)
  else if c = '+' then some 62
  else if c = '/' then some 63
  else none

/-- ASCII whitespace removed by forgiving base64. -/
def isB64Ws (c : Char) : Bool :=
  c.toNat = 9 || c.toNat = 10 || c.toNat = 12 || c.toNat = 13 || c.toNat = 32

/-- Remove up to two trailing padding characters. -/
def dropTrailPad (l : List Char) : List Char :=
  match l.reverse with
  | '=' :: '=' :: r => r.reverse
  | '=' :: r => r.reverse
  | _ => l

/-- Emit bytes from a run of 6-bit groups, discarding leftover bits. -/
def b64Bytes : List Char → Nat → Nat → List Nat
  | [], _, _ => []
  | c :: rest, buf, bits =>
    let v := (b64Val c).getD 0
    let buf2 := buf * 64 + v
    let bits2 := bits + 6
    if 8 ≤ bits2 then
      (buf2 / 2 ^ (bits2 - 8)) :: b64Bytes rest (buf2 % 2 ^ (bits2 - 8)) (bits2 - 8)
    else b64Bytes rest buf2 bits2

/-- The cleanup phase of forgiving base64: remove ASCII whitespace, then
remove up to two trailing padding characters when the length is a
multiple of four. -/
def atobCleanup (l : List Char) : List Char :=
  if (l.filter fun c => !(isB64Ws c)).length % 4 = 0 then
    dropTrailPad (l.filter fun c => !(isB64Ws c))
  else l.filter fun c => !(isB64Ws c)

/-- Forgiving base64 decode on a character list (`none` models the
`InvalidCharacterError` thrown by `atob`). -/
def atobL (l : List Char) : Option (List Nat) :=
  if (atobCleanup l).length % 4 = 1 then none
  else if (atobCleanup l).any (fun c => (b64Val c).isNone) then none
  else some (b64Bytes (atobCleanup l) 0 0)

/-- `atob`: decoded bytes presented as a JavaScript binary string. -/
def atob (s : String) : Option String :=
  (atobL s.data).map fun bs => (⟨bs.map Char.ofNat⟩ : String)

/-- The URL-safe alphabet normalisation (dash to plus, underscore to
slash) applied per character. -/
def b64urlNorm (c : Char) : Char :=
  if c = '-' then '+' else if c = '_' then '/' else c

/-! ## The regex matchers used by the decoder -/

/-- `parseInt` on a non-empty digit run. -/
def digitsToNat (ds : List Char) : Nat :=
  ds.foldl (fun a c => a * 10 + (c.toNat - 48)) 0

/-- Matcher for the case-insensitive claim pattern
quote, three letters, quote, colon, optional whitespace, digit run
(the `exp` and `iat` fallback regexes), applied at one position. -/
def tryNumClaim (a1 a2 a3 : Char) : List Char → Option (List Char)
  | '"' :: c1 :: c2 :: c3 :: '"' :: ':' :: r =>
    if c1.toLower = a1 ∧ c2.toLower = a2 ∧ c3.toLower = a3 then
      let ds := (r.dropWhile isJsSpace).takeWhile Char.isDigit
      if ds ≠ [] then some ds else none
    else none
  | _ => none

/-- Matcher for the case-insensitive `sub` fallback pattern: quote, `sub`,
quote, colon, optional whitespace, then a non-empty quoted group. -/
def trySub : List Char → Option (List Char)
  | '"' :: c1 :: c2 :: c3 :: '"' :: ':' :: r =>
    if c1.toLower = 's' ∧ c2.toLower = 'u' ∧ c3.toLower = 'b' then
      match r.dropWhile isJsSpace with
      | '"' :: r2 =>
        let g := r2.takeWhile (fun c => c ≠ '"')
        if g ≠ [] ∧ (r2.drop g.length).head? = some '"' then some g else none
      | _ => none
    else none
  | _ => none

/-- First match of the `sub` fallback regex. -/
def subMatch (l : List Char) : Option (List Char) := scanFirst trySub l

/-- First match of the `exp` fallback regex. -/
def expMatch (l : List Char) : Option (List Char) := scanFirst (tryNumClaim 'e' 'x' 'p') l

/-- First match of the `iat` fallback regex. -/
def iatMatch (l : List Char) : Option (List Char) := scanFirst (tryNumClaim 'i' 'a' 't') l

/-- Global regex replacement: walk the text, and at each position either
substitute a match (continuing after it) or keep the character.  The fuel
is the input length; every step consumes at least one character. -/
def scanReplace (f : List Char → Option (Nat × List Char)) : Nat → List Char → List Char
  | 0, l => l
  | _ + 1, [] => []
  | fuel + 1, c :: rest =>
    match f (c :: rest) with
    | some (n, rep) => rep ++ scanReplace f fuel ((c :: rest).drop n)
    | none => c :: scanReplace f fuel rest

/-- String-level wrapper of `scanReplace`. -/
def jsReplaceScan (f : List Char → Option (Nat × List Char)) (s : String) : String :=
  ⟨scanReplace f s.data.length s.data⟩

/-- Identifier characters of the repair patterns (`[a-zA-Z0-9_]`). -/
def isIdentChar (c : Char) : Bool := c.isAlpha || c.isDigit || c = '_'

/-- Leading identifier characters of the repair patterns (`[a-zA-Z_]`). -/
def isIdentStart (c : Char) : Bool := c.isAlpha || c = '_'

/-- Repair 1: quote a bare key after a brace or comma
(pattern: brace-or-comma, whitespace, identifier, whitespace, colon;
the whitespace before the identifier is kept, the one after it dropped). -/
def tryRepair1 : List Char → Option (Nat × List Char)
  | c :: rest =>
    if c = '\x7b' ∨ c = ',' then
      let ws := rest.takeWhile isJsSpace
      match rest.drop ws.length with
      | i0 :: r2 =>
        if isIdentStart i0 then
          let idr := r2.takeWhile isIdentChar
          let r3 := r2.drop idr.length
          let ws2 := r3.takeWhile isJsSpace
          match r3.drop ws2.length with
          | ':' :: _ =>
            some (1 + ws.length + 1 + idr.length + ws2.length + 1,
              (c :: ws) ++ ('"' :: i0 :: idr) ++ ['"', ':'])
          | _ => none
        else none
      | [] => none
    else none
  | [] => none

/-- Repair 2: escape stray embedded quotes in a string value
(pattern: colon, whitespace, quoted run, a second quoted run delimited by
quote or comma or closing brace, then a trailing run). -/
def tryRepair2 : List Char → Option (Nat × List Char)
  | ':' :: r =>
    let ws := r.takeWhile isJsSpace
    match r.drop ws.length with
    | '"' :: r2 =>
      let g1 := r2.takeWhile (fun c => c ≠ '"')
      match r2.drop g1.length with
      | '"' :: r4 =>
        let g2 := r4.takeWhile (fun c => c ≠ '"' ∧ c ≠ ',' ∧ c ≠ '\x7d')
        match r4.drop g2.length with
        | '"' :: r6 =>
          let g3 := r6.takeWhile (fun c => c ≠ '"' ∧ c ≠ ',' ∧ c ≠ '\x7d')
          some (1 + ws.length + 1 + g1.length + 1 + g2.length + 1 + g3.length,
            [':', '"'] ++ g1 ++ ['\\', '"'] ++ g2 ++ ['\\', '"'] ++ g3 ++ ['"'])
        | _ => none
      | _ => none
    | _ => none
  | _ => none

/-- Repair 4: insert a separator between adjacent quoted fields
(pattern: quote, whitespace, identifier start). -/
def tryRepair4 : List Char → Option (Nat × List Char)
  | '"' :: r =>
    let ws := r.takeWhile isJsSpace
    match r.drop ws.length with
    | a :: _ =>
      if isIdentStart a then some (1 + ws.length + 1, ['"', ',', ' ', '"', a])
      else none
    | [] => none
  | _ => none

/-- The recovery layer's four sequential global replaces.  The third
replace substitutes each match (a separator before a closing bracket)
with its own first capture group, which is the whole match, so it is the
identity on the text. -/
def fixPayload (s : String) : String :=
  let f1 := jsReplaceScan tryRepair1 s
  let f2 := jsReplaceScan tryRepair2 f1
  let f3 := f2
  jsReplaceScan tryRepair4 f3

/-! ## Canonical Steam identifiers and reconciliation -/

/-- The canonical-identifier regex (anchored: the fixed prefix `7656119`
followed by exactly ten digits, seventeen characters in all). -/
def canonicalSteamId (s : String) : Bool :=
  jsStartsWith s "7656119" && s.data.length == 17 && s.data.all Char.isDigit

/-- The fallback branch's reconciliation of a matched `sub` group:
strip non-digits; when at least ten digits remain, prepend the fixed
prefix to the last ten digits unless already prefixed, then truncate to
seventeen or zero-pad to seventeen (the pad only when prefixed). -/
def fallbackReconcile (raw : String) : String :=
  let s := raw.data.filter Char.isDigit
  if 10 ≤ s.length then
    let s1 :=
      if ¬ ("7656119".data.isPrefixOf s) then
        "7656119".data ++ s.drop (s.length - 10)
      else s
    let s2 :=
      if 17 < s1.length then s1.take 17
      else if s1.length < 17 ∧ "7656119".data.isPrefixOf s1 then
        s1 ++ List.replicate (17 - s1.length) '0'
      else s1
    ⟨s2⟩
  else ⟨s⟩

/-- Modelled from the spec: the account-id reconciliation of §4.2 step 6,
written from the specification text ("strip all non-digit characters ...
if it does not already start with the fixed 7-digit prefix, take its last
10 digits and prepend the prefix; then truncate to 17 digits if longer,
or zero-right-pad to 17 if shorter (only when it already starts with the
prefix)"), for comparison with the code's behaviour. -/
def claimedReconcile (sub : String) : String :=
  let ds := sub.data.filter Char.isDigit
  if 10 ≤ ds.length then
    let base :=
      if "7656119".data.isPrefixOf ds then ds
      else "7656119".data ++ ds.drop (ds.length - 10)
    let fin :=
      if 17 < base.length then base.take 17
      else if base.length < 17 ∧ "7656119".data.isPrefixOf base then
        base ++ List.replicate (17 - base.length) '0'
      else base
    ⟨fin⟩
  else ⟨ds⟩

/-! ## The credential decoder (`validateJWTToken`) -/

structure JWTValidation where
  is_valid : Bool := false
  is_expired : Bool := false
  steam_id : Option String := none
  username : Option String := none
  expires_at : Option Json := none
  issued_at : Option Json := none
  error : Option String := none
  payload : Option Json := none

/-- The fallback object builder (entered only when both parses failed):
regex-match `sub`, `exp` and `iat` from the decoded bytes; a matched
`sub` is reconciled and kept only when canonical, recording an error
otherwise; fail terminally when neither `sub` nor `exp` matched.
Returns the synthesized payload and the pending error, if any. -/
def fallbackPayload (payloadBytes : String) : Except String (Json × Option String) :=
  let subM := subMatch payloadBytes.data
  let expM := expMatch payloadBytes.data
  let iatM := iatMatch payloadBytes.data
  if subM.isNone ∧ expM.isNone then Except.error "JWT payload parsing failed"
  else
    let subPart : JsonObj → JsonObj :=
      match subM with
      | some g =>
        let sid := fallbackReconcile ⟨g⟩
        if canonicalSteamId sid then fun rest => JsonObj.cons "sub" (Json.str sid) rest
        else fun rest => rest
      | none => fun rest => rest
    let preError : Option String :=
      match subM with
      | some g => if canonicalSteamId (fallbackReconcile ⟨g⟩) then none
          else some "Invalid Steam ID format in JWT"
      | none => none
    let expPart : JsonObj → JsonObj :=
      match expM with
      | some ds => fun rest => JsonObj.cons "exp" (Json.num (digitsToNat ds : Nat)) rest
      | none => fun rest => rest
    let iatPart : JsonObj :=
      match iatM with
      | some ds => JsonObj.cons "iat" (Json.num (digitsToNat ds : Nat)) JsonObj.nil
      | none => JsonObj.nil
    Except.ok (Json.obj (subPart (expPart iatPart)), preError)

/-- The decode stages of `validateJWTToken` up to a usable payload:
split into three parts, pad the middle segment to a multiple of four,
normalise the URL-safe alphabet, base64-decode, then strict JSON parse,
textual repair, or regex fallback.  An `error` result is returned
unchanged by the surrounding function (with all flags false). -/
def decodeStage (jwtToken : String) : Except String (Json × Option String) :=
  match jsSplit jwtToken "." with
  | [_p0, p1, _p2] =>
    let padded := p1.data ++ List.replicate ((4 - p1.data.length % 4) % 4) '='
    match atobL (padded.map b64urlNorm) with
    | none => Except.error "JWT payload decoding error: InvalidCharacterError"
    | some bytes =>
      let payloadBytes : String := ⟨bytes.map Char.ofNat⟩
      match jsonParse payloadBytes with
      | some payloadData => Except.ok (payloadData, none)
      | none =>
        match jsonParse (fixPayload payloadBytes) with
        | some payloadData => Except.ok (payloadData, none)
        | none => fallbackPayload payloadBytes
  | _ => Except.error "Invalid JWT format - wrong number of parts"

/-- The final `sub` handling of the decoder: truthy `sub` is stripped of
non-digits and kept only when it passes the canonical test (with the
redundant length check of the source); returns the steam id and the
error state that stage leaves behind. -/
def subResult (payloadData : Json) (preError : Option String) : Option String × Option String :=
  match jsGet payloadData "sub" with
  | some v =>
    if jsTruthy v then
      let cs := stripNonDigits (jsToString v)
      if canonicalSteamId cs && cs.data.length == 17 then (some cs, preError)
      else (none, some "Invalid Steam ID format in JWT")
    else (none, some "No Steam ID found in JWT")
  | none => (none, some "No Steam ID found in JWT")

/-- The final `exp` handling: a truthy expiration claim is recorded and
compared against the current time in Unix seconds. -/
def expResult (payloadData : Json) (currentTime : Int) : Option Json × Bool :=
  match jsGet payloadData "exp" with
  | some v => if jsTruthy v then (some v, jsGreaterNum currentTime v) else (none, false)
  | none => (none, false)

/-- The final `iat` handling: a truthy issued-at claim is recorded. -/
def iatResult (payloadData : Json) : Option Json :=
  match jsGet payloadData "iat" with
  | some v => if jsTruthy v then some v else none
  | none => none

/-- The validation assembled from a decoded payload: structural validity
is having a steam id, and an expired token is forced invalid with the
expiration error; otherwise a missing steam id overwrites the error. -/
def applyPayload (payloadData : Json) (preError : Option String) (currentTime : Int) :
    JWTValidation :=
  let sr := subResult payloadData preError
  let er := expResult payloadData currentTime
  { is_valid := if er.2 then false else sr.1.isSome
    is_expired := er.2
    steam_id := sr.1
    username := none
    expires_at := er.1
    issued_at := iatResult payloadData
    error :=
      if er.2 then some "Token has expired"
      else if sr.1.isNone then some "No valid Steam ID found in token"
      else sr.2
    payload := some payloadData }

/-- `validateJWTToken`, with the wall clock (`Date.now()` in Unix
seconds) as an explicit parameter. -/
def validateJWTToken (jwtToken : String) (currentTime : Int) : JWTValidation :=
  match decodeStage jwtToken with
  | Except.error e => { error := some e }
  | Except.ok (p, pre) => applyPayload p pre currentTime

/-! ## The extraction helpers -/

/-- `extractUsernameFromJWT`: decode the middle segment (padding with
`4 - length % 4` equals signs) and return the first truthy
username-like claim; any failure returns nothing. -/
def extractUsernameFromJWT (jwtToken : String) : Option String :=
  match (jsSplit jwtToken ".")[1]? with
  | some payloadPart =>
    let padded := payloadPart.data ++ List.replicate (4 - payloadPart.data.length % 4) '='
    match atobL (padded.map b64urlNorm) with
    | some bytes =>
      match jsonParse ⟨bytes.map Char.ofNat⟩ with
      | some payloadData =>
        ["username", "name", "persona", "personaname"].findSome? fun f =>
          match jsGet payloadData f with
          | some v => if jsTruthy v then some (jsToString v) else none
          | none => none
      | none => none
    | none => none
  | none => none

/-- One attempt of the plain identifier regex (prefix and ten digits) at
a position. -/
def trySteamId (l : List Char) : Option (List Char) :=
  if "7656119".data.isPrefixOf l then
    let ds := (l.drop 7).take 10
    if ds.length = 10 ∧ ds.all Char.isDigit then some ("7656119".data ++ ds) else none
  else none

/-- First match of the plain identifier regex in the raw line. -/
def steamIdScan (l : List Char) : Option (List Char) := scanFirst trySteamId l

/-- The tail of `extractSteamIdFromToken`: the plain regex scan with its
redundant length check. -/
def steamIdRegexResult (tokenString : String) : Option String :=
  match steamIdScan tokenString.data with
  | some m => if m.length = 17 then some (⟨m⟩ : String) else none
  | none => none

/-- `extractSteamIdFromToken`: try the JWT `sub`/`steamid` path (with the
same four-equals padding as the username helper), then fall back to the
plain identifier scan over the whole line. -/
def extractSteamIdFromToken (tokenString : String) : Option String :=
  let fromJwt : Option String :=
    if jsIncludes tokenString "." then
      match (jsSplit tokenString ".")[1]? with
      | some payloadPart =>
        let padded := payloadPart.data ++ List.replicate (4 - payloadPart.data.length % 4) '='
        match atobL (padded.map b64urlNorm) with
        | some bytes =>
          match jsonParse ⟨bytes.map Char.ofNat⟩ with
          | some payloadData =>
            let v0 := jsGet payloadData "sub"
            let chosen :=
              match v0 with
              | some v => if jsTruthy v then some v else jsGet payloadData "steamid"
              | none => jsGet payloadData "steamid"
            match chosen with
            | some v =>
              if jsTruthy v then
                let cs := stripNonDigits (jsToString v)
                if canonicalSteamId cs && cs.data.length == 17 then some cs else none
              else none
            | none => none
          | none => none
        | none => none
      | none => none
    else none
  match fromJwt with
  | some s => some s
  | none => steamIdRegexResult tokenString

/-! ## The token parser (`parseTokenFormat`) -/

structure TokenInfo where
  username : Option String
  jwt_token : Option String
  cookies : List (String × String)
  raw_token : String

/-- Insert-or-overwrite into the cookie map. -/
def upsert (m : List (String × String)) (k v : String) : List (String × String) :=
  if m.any fun kv => kv.1 = k then
    m.map fun kv => if kv.1 = k then (k, v) else kv
  else m ++ [(k, v)]

/-- `parseCookiesFromLine`: split on semicolons, keep parts containing an
equals sign, split each on the first equals sign, trim both sides. -/
def parseCookiesFromLine (cookieLine : String) : List (String × String) :=
  if cookieLine = "" then []
  else
    (jsSplit (jsTrim cookieLine) ";").foldl
      (fun cookies part =>
        let tp := jsTrim part
        if jsIncludes tp "=" then
          match (jsSplit tp "=").take 2 with
          | [k, v] => upsert cookies (jsTrim k) (jsTrim v)
          | _ => cookies
        else cookies)
      []

/-- One attempt of the `steamLoginSecure=` value regex at a position. -/
def trySls (l : List Char) : Option (List Char) :=
  let key := "steamLoginSecure=".data
  if key.isPrefixOf l then
    let v := (l.drop key.length).takeWhile fun c => c ≠ ';'
    if v ≠ [] then some v else none
  else none

/-- `parseTokenFormat`: the three credential patterns in priority order
(delimiter format, cookie-assignment format, bare three-segment format),
then the cookie-map fallback. -/
def parseTokenFormat (tokenString : String) : TokenInfo :=
  let base : TokenInfo :=
    { username := none, jwt_token := none, cookies := [], raw_token := tokenString }
  let step1 : Option TokenInfo :=
    if jsIncludes tokenString "----" then
      match (jsSplit tokenString "----").take 2 with
      | [p0, p1] =>
        let j := jsTrim p1
        some { base with username := some (jsTrim p0), jwt_token := some j,
                         cookies := [("steamLoginSecure", j)] }
      | _ => none
    else none
  match step1 with
  | some ti => ti
  | none =>
    let step2 : Option TokenInfo :=
      if jsIncludes tokenString "steamLoginSecure=" then
        match scanFirst trySls tokenString.data with
        | some v =>
          let jwtValue := jsTrim ⟨v⟩
          let uname :=
            match extractUsernameFromJWT jwtValue with
            | some u => if u = "" then none else some u
            | none => none
          some { base with username := uname, jwt_token := some jwtValue,
                           cookies := [("steamLoginSecure", jwtValue)] }
        | none => none
      else none
    match step2 with
    | some ti => ti
    | none =>
      if (jsSplit tokenString ".").length = 3 then
        let j := jsTrim tokenString
        let uname :=
          match extractUsernameFromJWT tokenString with
          | some u => if u = "" then none else some u
          | none => none
        { base with username := uname, jwt_token := some j,
                    cookies := [("steamLoginSecure", j)] }
      else
        { base with cookies := parseCookiesFromLine tokenString }

/-! ## External data shapes and the lookup guards -/

structure UserProfile where
  username : String
  real_name : String
  avatar : String
  profile_url : String
  time_created : Int
  last_logoff : Int
  persona_state : Int

structure BanInfo where
  VACBanned : Bool
  CommunityBanned : Bool
  EconomyBan : String
  NumberOfVACBans : Int
  DaysSinceLastBan : Int
  NumberOfGameBans : Int
  SteamID : String

structure InventoryInfo where
  inventoryValue : Int
  itemCount : Int
  isPrivate : Bool
  error : Option String
  suggestion : Option String
  method : Option String

/-- The zeroed profile returned for an empty or sentinel identifier. -/
def defaultProfile : UserProfile :=
  { username := "Unknown", real_name := "Not specified", avatar := "",
    profile_url := "", time_created := 0, last_logoff := 0, persona_state := 0 }

/-- The zeroed ban record returned for an empty or sentinel identifier. -/
def defaultBan : BanInfo :=
  { VACBanned := false, CommunityBanned := false, EconomyBan := "none",
    NumberOfVACBans := 0, DaysSinceLastBan := 0, NumberOfGameBans := 0, SteamID := "" }

/-- The effect oracles of one batch run: the wall clock, which items
raise an unexpected exception, and the outcomes of the three network
lookups (each oracle already includes the retry-then-degrade behaviour
of the fetch wrappers) together with the locale timestamp renderer. -/
structure Env where
  now : Int
  throws : Nat → Option String
  profileOf : String → UserProfile
  banOf : String → BanInfo
  invOf : String → InventoryInfo
  fmtDate : Int → String

/-- `getUserProfile`: sentinel identifiers short-circuit to the zeroed
profile; otherwise the network oracle answers. -/
def getUserProfile (env : Env) (steamId _apiKey : String) : UserProfile :=
  if steamId = "" ∨ steamId = "Unknown" ∨ steamId = "Error" then defaultProfile
  else env.profileOf steamId

/-- `getBanInfo`: sentinel identifiers short-circuit to the zeroed ban
record; otherwise the network oracle answers. -/
def getBanInfo (env : Env) (steamId _apiKey : String) : BanInfo :=
  if steamId = "" ∨ steamId = "Unknown" ∨ steamId = "Error" then defaultBan
  else env.banOf steamId

/-- `formatTimestamp` on a number: positive timestamps are rendered by
the locale oracle, everything else is the `"Never"` sentinel. -/
def formatTimestamp (env : Env) (t : Int) : String :=
  if 0 < t then env.fmtDate t else "Never"

/-- `formatTimestamp` applied to the dynamically typed `expires_at`
value. -/
def formatTimestampJs (env : Env) (v : Json) : String :=
  match jsToNumber v with
  | some n => if jsTruthy v ∧ 0 < n then env.fmtDate n else "Never"
  | none => "Never"

/-! ## The status classifier and per-token pipeline -/

/-- The "has a real profile" test of the classifier. -/
def hasValidProfile (p : UserProfile) : Bool :=
  decide (0 < p.time_created) || decide (p.username ≠ "Unknown")

/-- The "profile not found" test of the classifier. -/
def profileNotFound (p : UserProfile) : Bool :=
  decide (p.username = "Unknown") && decide (p.time_created = 0)

/-- The status cascade of `processToken`: expiration, then structural
validity, then the profile signal. -/
def classifyStatus (jwtValidation : Option JWTValidation) (steamId : String)
    (profile : UserProfile) : String :=
  match jwtValidation with
  | some v =>
    if v.is_expired then "Expired"
    else if ¬ v.is_valid then "Invalid JWT"
    else if profileNotFound profile then "Account Not Found"
    else if ¬ hasValidProfile profile then "Limited Profile"
    else "Valid"
  | none =>
    if steamId = "" then "Invalid"
    else if ¬ hasValidProfile profile then "Account Not Found"
    else "Valid"

structure SteamAccount where
  accountNumber : Nat
  status : String
  steamId : String
  username : String
  realName : String
  vacBanned : Bool
  communityBanned : Bool
  economyBanned : String
  vacCount : Int
  accountCreated : String
  lastOnline : String
  expires : String
  jwtValid : Bool
  jwtExpired : Bool
  profileUrl : String
  daysSinceLastBan : Int
  gameBans : Int
  personaState : Int
  originalToken : String
  inventory : Option InventoryInfo

/-- The credential validation of one line: a truthy parsed credential is
validated against the clock. -/
def jwtValidationOf (env : Env) (token : String) : Option JWTValidation :=
  match (parseTokenFormat token).jwt_token with
  | some j => if j = "" then none else some (validateJWTToken j env.now)
  | none => none

/-- The identifier resolution of one line: the validated truthy steam id
when present, the raw-token extraction otherwise. -/
def steamIdOf (env : Env) (token : String) : String :=
  match jwtValidationOf env token with
  | some v =>
    match v.steam_id with
    | some s => if s = "" then (extractSteamIdFromToken token).getD "" else s
    | none => (extractSteamIdFromToken token).getD ""
  | none => (extractSteamIdFromToken token).getD ""

/-- `processToken`: parse the line, validate a truthy credential against
the clock, resolve the identifier, consult the lookup oracles, classify,
and assemble the record. -/
def processToken (env : Env) (token : String) (accountNumber : Nat)
    (apiKey : String) (checkInventory : Bool) : SteamAccount :=
  let tokenInfo := parseTokenFormat token
  let jwtValidation : Option JWTValidation := jwtValidationOf env token
  let steamId : String := steamIdOf env token
  let userProfile := getUserProfile env steamId apiKey
  let banInfo := getBanInfo env steamId apiKey
  let inventoryInfo : Option InventoryInfo :=
    if checkInventory ∧ steamId ≠ "" ∧ steamId ≠ "Error" ∧ steamId ≠ "Unknown" then
      some (env.invOf steamId)
    else none
  let status := classifyStatus jwtValidation steamId userProfile
  let expires : String :=
    match jwtValidation with
    | some v =>
      match v.expires_at with
      | some e => if jsTruthy e then formatTimestampJs env e else "Unknown"
      | none => "Unknown"
    | none => "Unknown"
  { accountNumber := accountNumber
    status := status
    steamId := if steamId = "" then "Unknown" else steamId
    username :=
      match tokenInfo.username with
      | some u => if u = "" then userProfile.username else u
      | none => userProfile.username
    realName := userProfile.real_name
    vacBanned := banInfo.VACBanned
    communityBanned := banInfo.CommunityBanned
    economyBanned := banInfo.EconomyBan
    vacCount := banInfo.NumberOfVACBans
    accountCreated := formatTimestamp env userProfile.time_created
    lastOnline := formatTimestamp env userProfile.last_logoff
    expires := expires
    jwtValid := match jwtValidation with | some v => v.is_valid | none => false
    jwtExpired := match jwtValidation with | some v => v.is_expired | none => false
    profileUrl := userProfile.profile_url
    daysSinceLastBan := banInfo.DaysSinceLastBan
    gameBans := banInfo.NumberOfGameBans
    personaState := userProfile.persona_state
    originalToken := jsTrim token
    inventory := inventoryInfo }

/-! ## The batch orchestrator (`checkSteamAccounts`) -/

structure CheckStats where
  total : Nat
  valid : Nat
  invalid : Nat
  expired : Nat
  vac_banned : Nat
  community_banned : Nat
  economy_banned : Nat
  account_not_found : Nat
  limited_profile : Nat

/-- The stats record the orchestrator starts from. -/
def initStats (n : Nat) : CheckStats :=
  { total := n, valid := 0, invalid := 0, expired := 0, vac_banned := 0,
    community_banned := 0, economy_banned := 0, account_not_found := 0,
    limited_profile := 0 }

/-- The status switch of the orchestrator (`switch` on the lowercased
status): every status lands in exactly one of the five outcome counters,
unknown statuses in `invalid`. -/
def bumpStatus (stats : CheckStats) (status : String) : CheckStats :=
  if status.toLower = "valid" then { stats with valid := stats.valid + 1 }
  else if status.toLower = "expired" then { stats with expired := stats.expired + 1 }
  else if status.toLower = "invalid" then { stats with invalid := stats.invalid + 1 }
  else if status.toLower = "invalid jwt" then { stats with invalid := stats.invalid + 1 }
  else if status.toLower = "account not found" then
    { stats with account_not_found := stats.account_not_found + 1 }
  else if status.toLower = "limited profile" then
    { stats with limited_profile := stats.limited_profile + 1 }
  else { stats with invalid := stats.invalid + 1 }

/-- The VAC-ban counter update. -/
def vacAdd (s : CheckStats) (a : SteamAccount) : CheckStats :=
  if a.vacBanned then { s with vac_banned := s.vac_banned + 1 } else s

/-- The community-ban counter update. -/
def commAdd (s : CheckStats) (a : SteamAccount) : CheckStats :=
  if a.communityBanned then { s with community_banned := s.community_banned + 1 } else s

/-- The economy-ban counter update. -/
def econAdd (s : CheckStats) (a : SteamAccount) : CheckStats :=
  if a.economyBanned ≠ "none" then { s with economy_banned := s.economy_banned + 1 } else s

/-- The full per-record statistics update (status counter plus the three
ban counters). -/
def statsAdd (stats : CheckStats) (a : SteamAccount) : CheckStats :=
  econAdd (commAdd (vacAdd (bumpStatus stats a.status) a) a) a

/-- The `Error`-status record synthesized at the per-item catch boundary
(all fields sentineled, the raw input trimmed). -/
def mkErrorAccount (token : String) (n : Nat) : SteamAccount :=
  { accountNumber := n, status := "Error", steamId := "Error", username := "Error",
    realName := "Error", vacBanned := false, communityBanned := false,
    economyBanned := "error", vacCount := 0, accountCreated := "Error",
    lastOnline := "Error", expires := "Error", jwtValid := false, jwtExpired := false,
    profileUrl := "", daysSinceLastBan := 0, gameBans := 0, personaState := 0,
    originalToken := jsTrim token, inventory := none }

/-- The sequential batch loop: one record per input, in order; a raised
item is replaced by the error record and only bumps `invalid`. -/
def checkLoop (processOne : String → Nat → Except String SteamAccount) :
    List String → Nat → CheckStats → List SteamAccount × CheckStats
  | [], _, stats => ([], stats)
  | t :: rest, n, stats =>
    match processOne t n with
    | Except.ok a =>
      let out := checkLoop processOne rest (n + 1) (statsAdd stats a)
      (a :: out.1, out.2)
    | Except.error _ =>
      let out := checkLoop processOne rest (n + 1)
        { stats with invalid := stats.invalid + 1 }
      (mkErrorAccount t n :: out.1, out.2)

/-- `checkSteamAccounts`, generic in the per-item pipeline so that an
arbitrary raised exception is expressible; the blank-key precondition is
the only batch-level failure. -/
def checkSteamAccounts (tokens : List String) (apiKey : String)
    (processOne : String → Nat → Except String SteamAccount) :
    Except String (List SteamAccount × CheckStats) :=
  if (jsTrim apiKey).data.length = 0 then
    Except.error "Steam Web API key is required. Please set it in the Settings tab."
  else Except.ok (checkLoop processOne tokens 1 (initStats tokens.length))

/-- The per-item pipeline of the source: the throw oracle decides whether
the item raises; otherwise `processToken` runs. -/
def envProcessOne (env : Env) (apiKey : String) (checkInventory : Bool) :
    String → Nat → Except String SteamAccount :=
  fun t n =>
    match env.throws n with
    | some e => Except.error e
    | none => Except.ok (processToken env t n apiKey checkInventory)

/-- A trivial oracle environment for concrete evaluations. -/
def trivEnv : Env :=
  { now := 0, throws := fun _ => none, profileOf := fun _ => defaultProfile,
    banOf := fun _ => defaultBan,
    invOf := fun _ =>
      { inventoryValue := 0, itemCount := 0, isPrivate := false,
        error := none, suggestion := none, method := none },
    fmtDate := fun _ => "" }

/-- The sum of the five mutually exclusive outcome counters. -/
def fiveSum (s : CheckStats) : Nat :=
  s.valid + s.invalid + s.expired + s.account_not_found + s.limited_profile

/-- A per-item pipeline that always raises, for concrete error-path runs. -/
def failPO : String → Nat → Except String SteamAccount :=
  fun _ _ => Except.error "boom"

/-! ## Support lemmas -/

theorem dropTrailPad_append_four (x : List Char) :
    dropTrailPad (x ++ ['=', '=', '=', '=']) = x ++ ['=', '='] := by
  unfold dropTrailPad
  rw [List.reverse_append]
  simp

theorem mem_atobCleanup_append_four (x : List Char) :
    '=' ∈ atobCleanup (x ++ ['=', '=', '=', '=']) := by
  unfold atobCleanup
  rw [List.filter_append]
  have hf : (['=', '=', '=', '='].filter fun c => !(isB64Ws c)) = ['=', '=', '=', '='] := by
    decide
  rw [hf]
  by_cases h0 : ((x.filter fun c => !(isB64Ws c)) ++ ['=', '=', '=', '=']).length % 4 = 0
  · rw [if_pos h0, dropTrailPad_append_four]
    simp
  · rw [if_neg h0]
    simp

theorem atobL_none_of_mem_pad (l : List Char) (h : '=' ∈ atobCleanup l) :
    atobL l = none := by
  unfold atobL
  by_cases h1 : (atobCleanup l).length % 4 = 1
  · rw [if_pos h1]
  · rw [if_neg h1]
    have hany : ((atobCleanup l).any fun c => (b64Val c).isNone) = true := by
      rw [List.any_eq_true]
      exact ⟨'=', h, by decide⟩
    rw [if_pos hany]

theorem atobL_append_four_pad (x : List Char) :
    atobL (x ++ ['=', '=', '=', '=']) = none :=
  atobL_none_of_mem_pad _ (mem_atobCleanup_append_four x)

theorem splitFirst_none_jsSplitF (s0 : Char) (st l : List Char)
    (h : splitFirst s0 st l = none) (fuel : Nat) :
    jsSplitF s0 st fuel l = [l] := by
  induction l generalizing fuel with
  | nil => cases fuel <;> rfl
  | cons c rest ih =>
    unfold splitFirst at h
    by_cases hp : (s0 :: st).isPrefixOf (c :: rest) = true
    · rw [if_pos hp] at h
      exact absurd h (by simp)
    · rw [if_neg hp] at h
      cases hr : splitFirst s0 st rest with
      | some p => rw [hr] at h; exact absurd h (by simp)
      | none =>
        cases fuel with
        | zero => rfl
        | succ g =>
          unfold jsSplitF
          rw [if_neg hp, ih hr g]

theorem jsSplitF_fuel_irrel (s0 : Char) (st : List Char) :
    ∀ f1 l, l.length ≤ f1 → ∀ f2, l.length ≤ f2 →
      jsSplitF s0 st f1 l = jsSplitF s0 st f2 l := by
  intro f1
  induction f1 with
  | zero =>
    intro l hl f2 _
    have : l = [] := List.length_eq_zero.mp (Nat.le_zero.mp hl)
    subst this
    cases f2 <;> rfl
  | succ g1 ih =>
    intro l hl f2 hl2
    cases l with
    | nil => cases f2 <;> rfl
    | cons c rest =>
      cases f2 with
      | zero => exact absurd hl2 (by simp)
      | succ g2 =>
        unfold jsSplitF
        by_cases hp : (s0 :: st).isPrefixOf (c :: rest) = true
        · rw [if_pos hp, if_pos hp]
          have hd1 : (rest.drop st.length).length ≤ g1 := by
            have := List.length_drop st.length rest
            simp at hl
            omega
          have hd2 : (rest.drop st.length).length ≤ g2 := by
            have := List.length_drop st.length rest
            simp at hl2
            omega
          rw [ih _ hd1 g2 hd2]
        · rw [if_neg hp, if_neg hp]
          have h1 : rest.length ≤ g1 := by simp at hl; omega
          have h2 : rest.length ≤ g2 := by simp at hl2; omega
          rw [ih _ h1 g2 h2]

theorem jsSplitF_char (s0 : Char) (st : List Char) :
    ∀ l fuel, l.length ≤ fuel →
      jsSplitF s0 st fuel l =
        match splitFirst s0 st l with
        | some (b, a) => b :: jsSplitF s0 st a.length a
        | none => [l] := by
  intro l
  induction l with
  | nil =>
    intro fuel _
    cases fuel <;> rfl
  | cons c rest ih =>
    intro fuel hl
    cases fuel with
    | zero => exact absurd hl (by simp)
    | succ g =>
      have step : jsSplitF s0 st (g + 1) (c :: rest) =
          if (s0 :: st).isPrefixOf (c :: rest) = true then
            [] :: jsSplitF s0 st g (rest.drop st.length)
          else
            match jsSplitF s0 st g rest with
            | [] => [[c]]
            | seg :: segs => (c :: seg) :: segs := rfl
      have sstep : splitFirst s0 st (c :: rest) =
          if (s0 :: st).isPrefixOf (c :: rest) = true then
            some ([], rest.drop st.length)
          else
            match splitFirst s0 st rest with
            | some (b, a) => some (c :: b, a)
            | none => none := rfl
      rw [step, sstep]
      by_cases hp : (s0 :: st).isPrefixOf (c :: rest) = true
      · rw [if_pos hp, if_pos hp]
        have hd : (rest.drop st.length).length ≤ g := by
          have := List.length_drop st.length rest
          simp at hl
          omega
        rw [jsSplitF_fuel_irrel s0 st g _ hd (rest.drop st.length).length (le_refl _)]
      · rw [if_neg hp, if_neg hp]
        have h1 : rest.length ≤ g := by simp at hl; omega
        rw [ih g h1]
        cases hr : splitFirst s0 st rest with
        | none => rfl
        | some p => cases p with | mk b a => rfl

theorem jsSplitF_ne_nil (s0 : Char) (st l : List Char) (fuel : Nat) :
    jsSplitF s0 st fuel l ≠ [] := by
  cases l with
  | nil => cases fuel <;> simp [jsSplitF]
  | cons c rest =>
    cases fuel with
    | zero => simp [jsSplitF]
    | succ g =>
      unfold jsSplitF
      by_cases hp : (s0 :: st).isPrefixOf (c :: rest) = true
      · rw [if_pos hp]; simp
      · rw [if_neg hp]
        cases jsSplitF s0 st g rest <;> simp

theorem splitFirst_isSome_of_get1 (s0 : Char) (st l : List Char) (fuel : Nat)
    (h : (jsSplitF s0 st fuel l)[1]?.isSome) : (splitFirst s0 st l).isSome := by
  cases hs : splitFirst s0 st l with
  | some p => simp
  | none =>
    rw [splitFirst_none_jsSplitF s0 st l hs fuel] at h
    simp at h

/-- The decoder's final `sub` stage only ever records a canonical
identifier. -/
theorem subResult_canonical (p : Json) (pre : Option String) (s : String)
    (h : (subResult p pre).1 = some s) : canonicalSteamId s = true := by
  unfold subResult at h
  cases hg : jsGet p "sub" with
  | none => rw [hg] at h; simp at h
  | some v =>
    rw [hg] at h
    dsimp only at h
    by_cases ht : jsTruthy v = true
    · rw [if_pos ht] at h
      by_cases hc : (canonicalSteamId (stripNonDigits (jsToString v)) &&
          (stripNonDigits (jsToString v)).data.length == 17) = true
      · rw [if_pos hc] at h
        simp at h
        subst h
        exact (Bool.and_eq_true_iff.mp hc).1
      · rw [if_neg hc] at h
        simp at h
    · rw [if_neg ht] at h
      simp at h

theorem checkLoop_length (po : String → Nat → Except String SteamAccount) :
    ∀ ts n stats, (checkLoop po ts n stats).1.length = ts.length := by
  intro ts
  induction ts with
  | nil => intro n stats; rfl
  | cons t rest ih =>
    intro n stats
    unfold checkLoop
    cases po t n with
    | ok a => simpa using ih (n + 1) (statsAdd stats a)
    | error e => simpa using ih (n + 1) { stats with invalid := stats.invalid + 1 }

theorem checkLoop_get (po : String → Nat → Except String SteamAccount) :
    ∀ ts i n stats tok, ts[i]? = some tok →
      (checkLoop po ts n stats).1[i]? = some
        (match po tok (n + i) with
         | Except.ok a => a
         | Except.error _ => mkErrorAccount tok (n + i)) := by
  intro ts
  induction ts with
  | nil => intro i n stats tok h; simp at h
  | cons t rest ih =>
    intro i n stats tok h
    cases i with
    | zero =>
      have h0 : t = tok := by simpa using h
      subst h0
      unfold checkLoop
      cases hp : po t n with
      | ok a => simp [hp]
      | error e => simp [hp]
    | succ j =>
      simp at h
      unfold checkLoop
      cases hp : po t n with
      | ok a =>
        have hrec := ih j (n + 1) (statsAdd stats a) tok h
        have harith : n + 1 + j = n + (j + 1) := by omega
        rw [harith] at hrec
        simp [hp, hrec]
      | error e =>
        have hrec := ih j (n + 1) { stats with invalid := stats.invalid + 1 } tok h
        have harith : n + 1 + j = n + (j + 1) := by omega
        rw [harith] at hrec
        simp [hp, hrec]

theorem checkLoop_accountNumbers (po : String → Nat → Except String SteamAccount)
    (hpo : ∀ t m a, po t m = Except.ok a → a.accountNumber = m) :
    ∀ ts n stats,
      (checkLoop po ts n stats).1.map (fun a => a.accountNumber) =
        List.range' n ts.length := by
  intro ts
  induction ts with
  | nil => intro n stats; rfl
  | cons t rest ih =>
    intro n stats
    unfold checkLoop
    cases hp : po t n with
    | ok a =>
      simp only [List.length_cons, List.range'_succ, List.map_cons]
      rw [hpo t n a hp, ih (n + 1) (statsAdd stats a)]
    | error e =>
      simp only [List.length_cons, List.range'_succ, List.map_cons]
      rw [ih (n + 1) { stats with invalid := stats.invalid + 1 }]
      rfl

theorem bumpStatus_fiveSum (stats : CheckStats) (st : String) :
    fiveSum (bumpStatus stats st) = fiveSum stats + 1 := by
  unfold bumpStatus
  split
  · simp [fiveSum]; omega
  · split
    · simp [fiveSum]; omega
    · split
      · simp [fiveSum]; omega
      · split
        · simp [fiveSum]; omega
        · split
          · simp [fiveSum]; omega
          · split
            · simp [fiveSum]; omega
            · simp [fiveSum]; omega

theorem bumpStatus_total (stats : CheckStats) (st : String) :
    (bumpStatus stats st).total = stats.total := by
  unfold bumpStatus
  split
  · rfl
  · split
    · rfl
    · split
      · rfl
      · split
        · rfl
        · split
          · rfl
          · split
            · rfl
            · rfl

theorem vacAdd_fiveSum (s : CheckStats) (a : SteamAccount) :
    fiveSum (vacAdd s a) = fiveSum s := by
  unfold vacAdd; split <;> simp [fiveSum]

theorem commAdd_fiveSum (s : CheckStats) (a : SteamAccount) :
    fiveSum (commAdd s a) = fiveSum s := by
  unfold commAdd; split <;> simp [fiveSum]

theorem econAdd_fiveSum (s : CheckStats) (a : SteamAccount) :
    fiveSum (econAdd s a) = fiveSum s := by
  unfold econAdd; split <;> simp [fiveSum]

theorem vacAdd_total (s : CheckStats) (a : SteamAccount) :
    (vacAdd s a).total = s.total := by
  unfold vacAdd; split <;> rfl

theorem commAdd_total (s : CheckStats) (a : SteamAccount) :
    (commAdd s a).total = s.total := by
  unfold commAdd; split <;> rfl

theorem econAdd_total (s : CheckStats) (a : SteamAccount) :
    (econAdd s a).total = s.total := by
  unfold econAdd; split <;> rfl

theorem statsAdd_fiveSum (stats : CheckStats) (a : SteamAccount) :
    fiveSum (statsAdd stats a) = fiveSum stats + 1 := by
  unfold statsAdd
  rw [econAdd_fiveSum, commAdd_fiveSum, vacAdd_fiveSum, bumpStatus_fiveSum]

theorem statsAdd_total (stats : CheckStats) (a : SteamAccount) :
    (statsAdd stats a).total = stats.total := by
  unfold statsAdd
  rw [econAdd_total, commAdd_total, vacAdd_total, bumpStatus_total]

theorem checkLoop_stats (po : String → Nat → Except String SteamAccount) :
    ∀ ts n stats,
      fiveSum (checkLoop po ts n stats).2 = fiveSum stats + ts.length ∧
      (checkLoop po ts n stats).2.total = stats.total := by
  intro ts
  induction ts with
  | nil => intro n stats; exact ⟨rfl, rfl⟩
  | cons t rest ih =>
    intro n stats
    unfold checkLoop
    cases po t n with
    | ok a =>
      have := ih (n + 1) (statsAdd stats a)
      constructor
      · simp only [List.length_cons]
        rw [this.1, statsAdd_fiveSum]
        omega
      · rw [this.2, statsAdd_total]
    | error e =>
      have := ih (n + 1) { stats with invalid := stats.invalid + 1 }
      constructor
      · simp only [List.length_cons]
        rw [this.1]
        simp [fiveSum]
        omega
      · rw [this.2]

/-- The "has a real profile" test is exactly the negation of the
"profile not found" test once the creation timestamp is nonnegative. -/
theorem hasValid_iff_not_notFound (p : UserProfile) (hp : 0 ≤ p.time_created) :
    hasValidProfile p = true ↔ profileNotFound p = false := by
  unfold hasValidProfile profileNotFound
  by_cases hu : p.username = "Unknown" <;> by_cases htc : p.time_created = 0
  all_goals simp [hu, htc]
  all_goals omega

/-- The classifier cascade never produces the limited-profile status for
a nonnegative creation timestamp. -/
theorem classifyStatus_ne_lp (jv : Option JWTValidation) (sid : String)
    (p : UserProfile) (hp : 0 ≤ p.time_created) :
    classifyStatus jv sid p ≠ "Limited Profile" := by
  unfold classifyStatus
  cases jv with
  | some v =>
    dsimp only
    by_cases he : v.is_expired = true
    · simp only [if_pos he]; decide
    · by_cases hv : v.is_valid = true
      · by_cases hnf : profileNotFound p = true
        · simp [he, hv, hnf]
        · have hvp : hasValidProfile p = true :=
            (hasValid_iff_not_notFound p hp).mpr (by simpa using hnf)
          simp [he, hv, hnf, hvp]
      · simp [he, hv]
  | none =>
    dsimp only
    by_cases hs : sid = ""
    · simp [hs]
    · by_cases hvp : hasValidProfile p = true
      · simp [hs, hvp]
      · simp [hs, hvp]

/-- The profile the pipeline classifies with always has a nonnegative
creation timestamp when the profile oracle guarantees it. -/
theorem getUserProfile_nonneg (env : Env) (sid apiKey : String)
    (hprof : ∀ s, 0 ≤ (env.profileOf s).time_created) :
    0 ≤ (getUserProfile env sid apiKey).time_created := by
  unfold getUserProfile
  split
  · exact le_refl 0
  · exact hprof sid

/-! ## The claims -/

/-- Claim C1: for every input credential string and every clock value,
a structurally valid decode carries a steam id matching exactly the
fixed prefix 7656119 followed by ten further digits, seventeen
characters in all (the canonical pattern). -/
theorem C1_valid_implies_canonical_id (jwt : String) (t : Int)
    (h : (validateJWTToken jwt t).is_valid = true) :
    match (validateJWTToken jwt t).steam_id with
    | some s => canonicalSteamId s = true
    | none => False := by
  unfold validateJWTToken at h ⊢
  cases hd : decodeStage jwt with
  | error e =>
    rw [hd] at h
    simp at h
  | ok pr =>
    cases pr with
    | mk p pre =>
      rw [hd] at h
      dsimp only at h ⊢
      unfold applyPayload at h ⊢
      dsimp only at h ⊢
      by_cases he : (expResult p t).2 = true
      · rw [if_pos he] at h
        exact absurd h (by simp)
      · rw [if_neg he] at h
        cases hs : (subResult p pre).1 with
        | none => rw [hs] at h; simp at h
        | some s => exact subResult_canonical p pre s hs

set_option maxHeartbeats 1000000 in
/-- Witness for C1 at a concrete valid credential. -/
theorem C1_witness :
    (validateJWTToken "x.eyJzdWIiOiI3NjU2MTE5ODEyMzQ1Njc4OSJ9.y" 0).is_valid = true ∧
    (match (validateJWTToken "x.eyJzdWIiOiI3NjU2MTE5ODEyMzQ1Njc4OSJ9.y" 0).steam_id with
     | some s => canonicalSteamId s = true
     | none => False) :=
  ⟨by decide, C1_valid_implies_canonical_id "x.eyJzdWIiOiI3NjU2MTE5ODEyMzQ1Njc4OSJ9.y" 0
    (by decide)⟩

/-- Claim C2: for every input credential string and every clock value,
an expired decode is forced structurally invalid and carries the
expiration error. -/
theorem C2_expiration_override (jwt : String) (t : Int)
    (h : (validateJWTToken jwt t).is_expired = true) :
    (validateJWTToken jwt t).is_valid = false ∧
    (validateJWTToken jwt t).error = some "Token has expired" := by
  unfold validateJWTToken at h ⊢
  cases hd : decodeStage jwt with
  | error e =>
    rw [hd] at h
    exact absurd h (by simp)
  | ok pr =>
    cases pr with
    | mk p pre =>
      rw [hd] at h
      dsimp only at h ⊢
      unfold applyPayload at h ⊢
      dsimp only at h ⊢
      exact ⟨by rw [if_pos h], by rw [if_pos h]⟩

set_option maxHeartbeats 1000000 in
/-- Witness for C2 at a concrete expired credential. -/
theorem C2_witness :
    (validateJWTToken "x.eyJzdWIiOiI3NjU2MTE5ODEyMzQ1Njc4OSIsImV4cCI6MX0.y" 2).is_expired
      = true ∧
    ((validateJWTToken "x.eyJzdWIiOiI3NjU2MTE5ODEyMzQ1Njc4OSIsImV4cCI6MX0.y" 2).is_valid
        = false ∧
      (validateJWTToken "x.eyJzdWIiOiI3NjU2MTE5ODEyMzQ1Njc4OSIsImV4cCI6MX0.y" 2).error
        = some "Token has expired") :=
  ⟨by decide, C2_expiration_override "x.eyJzdWIiOiI3NjU2MTE5ODEyMzQ1Njc4OSIsImV4cCI6MX0.y" 2
    (by decide)⟩

set_option maxHeartbeats 1000000 in
/-- Counterexample to C3 as stated: a strict-parse `sub` claim of ten
digits without the prefix is rejected, not reconciled, although the
reconciliation the claim describes would produce a canonical id. -/
theorem C3_counterexample :
    (validateJWTToken "x.eyJzdWIiOiIxMjM0NTY3ODkwIn0.y" 0).steam_id = none ∧
    (validateJWTToken "x.eyJzdWIiOiIxMjM0NTY3ODkwIn0.y" 0).is_valid = false ∧
    (match decodeStage "x.eyJzdWIiOiIxMjM0NTY3ODkwIn0.y" with
     | Except.ok (p, _) => jsGet p "sub" = some (Json.str "1234567890")
     | Except.error _ => False) ∧
    claimedReconcile "1234567890" = "76561191234567890" ∧
    canonicalSteamId "76561191234567890" = true :=
  ⟨by decide, by decide, by rfl, by decide, by decide⟩

/-- Claim C3 amended: the reconciliation (strip to digits, prepend the
prefix to the last ten digits when unprefixed, truncate or zero-pad to
seventeen) is applied only in the regex-extraction fallback, where it
matches the spec description exactly; a `sub` claim recovered by strict
parse or textual repair is only stripped of non-digits and validated
against the canonical pattern, with no reconstruction. -/
theorem C3_reconciliation_amended :
    (∀ s, fallbackReconcile s = claimedReconcile s) ∧
    (∀ (p : Json) (pre : Option String) (t : Int) (v : Json),
      jsGet p "sub" = some v → jsTruthy v = true →
      (applyPayload p pre t).steam_id =
        (if canonicalSteamId (stripNonDigits (jsToString v)) &&
            (stripNonDigits (jsToString v)).data.length == 17 then
          some (stripNonDigits (jsToString v))
        else none)) := by
  constructor
  · intro s
    unfold fallbackReconcile claimedReconcile
    by_cases hp : "7656119".data.isPrefixOf (s.data.filter Char.isDigit) = true <;>
      by_cases h10 : 10 ≤ (s.data.filter Char.isDigit).length <;>
        simp [hp, h10]
  · intro p pre t v hg ht
    unfold applyPayload
    dsimp only
    unfold subResult
    rw [hg]
    dsimp only
    rw [if_pos ht]
    by_cases hc : (canonicalSteamId (stripNonDigits (jsToString v)) &&
        (stripNonDigits (jsToString v)).data.length == 17) = true
    · rw [if_pos hc, if_pos hc]
    · rw [if_neg hc, if_neg hc]

/-- Witness for the amended C3 at a concrete canonical strict-parse
payload. -/
theorem C3_witness :
    (applyPayload (Json.obj (JsonObj.cons "sub" (Json.str "76561198123456789") JsonObj.nil))
        none 0).steam_id =
      (if canonicalSteamId (stripNonDigits (jsToString (Json.str "76561198123456789"))) &&
          (stripNonDigits (jsToString (Json.str "76561198123456789"))).data.length == 17 then
        some (stripNonDigits (jsToString (Json.str "76561198123456789")))
      else none) :=
  C3_reconciliation_amended.2
    (Json.obj (JsonObj.cons "sub" (Json.str "76561198123456789") JsonObj.nil)) none 0
    (Json.str "76561198123456789") (by rfl) (by decide)

/-- Claim C8 amended: the expiration flag is set exactly when a truthy
(in particular nonzero) expiration claim was recovered and the current
time exceeds it; a zero expiration claim is treated as absent, leaving
the flag false. -/
theorem C8_expiration_amended (jwt : String) (t : Int) :
    (validateJWTToken jwt t).is_expired = true ↔
      (match decodeStage jwt with
       | Except.ok (p, _) =>
         match jsGet p "exp" with
         | some v => jsTruthy v = true ∧ jsGreaterNum t v = true
         | none => False
       | Except.error _ => False) := by
  unfold validateJWTToken
  cases hd : decodeStage jwt with
  | error e => simp
  | ok pr =>
    cases pr with
    | mk p pre =>
      unfold applyPayload
      dsimp only
      unfold expResult
      cases hg : jsGet p "exp" with
      | none => simp
      | some v =>
        dsimp only
        by_cases ht : jsTruthy v = true
        · rw [if_pos ht]
          dsimp only
          constructor
          · intro hgt; exact ⟨ht, hgt⟩
          · intro hconj; exact hconj.2
        · rw [if_neg ht]
          dsimp only
          constructor
          · intro hf; exact absurd hf (by simp)
          · intro hconj; exact absurd hconj.1 ht

set_option maxHeartbeats 1000000 in
/-- Counterexample to C4 as stated: with a second delimiter occurrence
the credential is only the text between the first two occurrences, not
the whole remainder. -/
theorem C4_counterexample :
    (parseTokenFormat "a----b----c").jwt_token = some "b" ∧
    ¬ ((parseTokenFormat "a----b----c").jwt_token = some "b----c") :=
  ⟨by decide, by decide⟩

/-- Claim C4 amended: for a line containing the delimiter, the username
is the trimmed text before the first occurrence, and the credential is
the trimmed text between the first occurrence and the next occurrence
(or the end of the line), so later delimited text is dropped. -/
theorem C4_delimiter_amended (line : String) (bl al : List Char)
    (h : splitFirst '-' ['-', '-', '-'] line.data = some (bl, al)) :
    (parseTokenFormat line).username = some (jsTrim (⟨bl⟩ : String)) ∧
    (parseTokenFormat line).jwt_token =
      some (jsTrim (⟨firstSeg '-' ['-', '-', '-'] al⟩ : String)) := by
  have hInc : jsIncludes line "----" = true := by
    show (splitFirst '-' ['-', '-', '-'] line.data).isSome = true
    rw [h]
    rfl
  have htake : (jsSplit line "----").take 2 =
      [(⟨bl⟩ : String), (⟨firstSeg '-' ['-', '-', '-'] al⟩ : String)] := by
    show (((jsSplitF '-' ['-', '-', '-'] line.data.length line.data).map
      fun l => (⟨l⟩ : String)).take 2) = _
    rw [jsSplitF_char '-' ['-', '-', '-'] line.data line.data.length (le_refl _), h]
    dsimp only
    rw [jsSplitF_char '-' ['-', '-', '-'] al al.length (le_refl _)]
    unfold firstSeg
    cases h2 : splitFirst '-' ['-', '-', '-'] al with
    | some p =>
      cases p with
      | mk b2 a2 => simp
    | none => simp
  unfold parseTokenFormat
  dsimp only
  rw [if_pos hInc, htake]
  exact ⟨rfl, rfl⟩

/-- Witness for the amended C4 at a concrete double-delimiter line. -/
theorem C4_witness :
    (parseTokenFormat "u----j----k").username = some (jsTrim "u") ∧
    (parseTokenFormat "u----j----k").jwt_token =
      some (jsTrim (⟨firstSeg '-' ['-', '-', '-'] "j----k".data⟩ : String)) :=
  C4_delimiter_amended "u----j----k" "u".data "j----k".data (by decide)

/-- Claim C5 amended: an exception in one item's pipeline is caught at
the per-item boundary and converted into an `Error`-status record
carrying the item's raw input trimmed of surrounding whitespace and its
one-based sequence number, all other fields sentineled, and the batch
still returns one record per input. -/
theorem C5_error_isolation_amended (tokens : List String) (apiKey : String)
    (processOne : String → Nat → Except String SteamAccount) (i : Nat) (tok e : String)
    (hk : (jsTrim apiKey).data.length ≠ 0)
    (ht : tokens[i]? = some tok)
    (he : processOne tok (i + 1) = Except.error e) :
    match checkSteamAccounts tokens apiKey processOne with
    | Except.ok (records, _) =>
      records.length = tokens.length ∧
      records[i]? = some (mkErrorAccount tok (i + 1))
    | Except.error _ => False := by
  unfold checkSteamAccounts
  rw [if_neg hk]
  dsimp only
  refine ⟨checkLoop_length processOne tokens 1 (initStats tokens.length), ?_⟩
  have hg := checkLoop_get processOne tokens i 1 (initStats tokens.length) tok ht
  rw [Nat.add_comm 1 i, he] at hg
  dsimp only at hg
  exact hg

/-- Witness for the amended C5 at a concrete raising item. -/
theorem C5_witness :
    match checkSteamAccounts ["tok"] "k" failPO with
    | Except.ok (records, _) =>
      records.length = (["tok"] : List String).length ∧
      records[0]? = some (mkErrorAccount "tok" 1)
    | Except.error _ => False :=
  C5_error_isolation_amended ["tok"] "k" failPO 0 "tok" "boom" (by decide) (by decide)
    (by rfl)

/-- Counterexample to C5 as stated: the error record stores the trimmed
input, not the original raw input. -/
theorem C5_counterexample :
    (match checkSteamAccounts [" a "] "k" failPO with
     | Except.ok (records, _) => records.map fun r => r.originalToken
     | Except.error _ => ([] : List String)) = ["a"] ∧
    " a " ≠ "a" :=
  ⟨by decide, by decide⟩

/-- Claim C6: a batch over N inputs with a usable key yields exactly N
records whose sequence numbers are 1..N in input order, raised items
included. -/
theorem C6_sequence_stability (tokens : List String) (apiKey : String) (env : Env)
    (cInv : Bool) (hk : (jsTrim apiKey).data.length ≠ 0) :
    match checkSteamAccounts tokens apiKey (envProcessOne env apiKey cInv) with
    | Except.ok (records, _) =>
      records.length = tokens.length ∧
      records.map (fun a => a.accountNumber) = List.range' 1 tokens.length
    | Except.error _ => False := by
  unfold checkSteamAccounts
  rw [if_neg hk]
  dsimp only
  refine ⟨checkLoop_length _ tokens 1 _, ?_⟩
  apply checkLoop_accountNumbers
  intro t m a hp
  unfold envProcessOne at hp
  cases hth : env.throws m with
  | some e2 => rw [hth] at hp; exact absurd hp (by simp)
  | none =>
    rw [hth] at hp
    dsimp only at hp
    have hpa : processToken env t m apiKey cInv = a := by
      cases hp
      rfl
    rw [← hpa]
    rfl

set_option maxHeartbeats 1000000 in
/-- Witness for C6 at a concrete two-line batch. -/
theorem C6_witness :
    match checkSteamAccounts ["a", "b"] "k" (envProcessOne trivEnv "k" false) with
    | Except.ok (records, _) =>
      records.length = (["a", "b"] : List String).length ∧
      records.map (fun a => a.accountNumber) =
        List.range' 1 (["a", "b"] : List String).length
    | Except.error _ => False :=
  C6_sequence_stability ["a", "b"] "k" trivEnv false (by decide)

/-- Claim C7: the statistics of a completed batch satisfy
total = number of records, and the five outcome counters (errors folded
into invalid) sum to the total. -/
theorem C7_statistics_fold (tokens : List String) (apiKey : String)
    (processOne : String → Nat → Except String SteamAccount)
    (hk : (jsTrim apiKey).data.length ≠ 0) :
    match checkSteamAccounts tokens apiKey processOne with
    | Except.ok (records, stats) =>
      stats.total = records.length ∧
      stats.valid + stats.invalid + stats.expired + stats.account_not_found +
        stats.limited_profile = stats.total
    | Except.error _ => False := by
  unfold checkSteamAccounts
  rw [if_neg hk]
  dsimp only
  have hs := checkLoop_stats processOne tokens 1 (initStats tokens.length)
  have hl := checkLoop_length processOne tokens 1 (initStats tokens.length)
  constructor
  · rw [hs.2, hl]
    rfl
  · show fiveSum (checkLoop processOne tokens 1 (initStats tokens.length)).2 =
      (checkLoop processOne tokens 1 (initStats tokens.length)).2.total
    rw [hs.1, hs.2]
    simp [fiveSum, initStats]

/-- Witness for C7 at a concrete batch with a raising item. -/
theorem C7_witness :
    match checkSteamAccounts ["x"] "k" failPO with
    | Except.ok (records, stats) =>
      stats.total = records.length ∧
      stats.valid + stats.invalid + stats.expired + stats.account_not_found +
        stats.limited_profile = stats.total
    | Except.error _ => False :=
  C7_statistics_fold ["x"] "k" failPO (by decide)

/-- Claim C9: with a nonnegative creation timestamp, the classifier's
"has a real profile" test is exactly the negation of its "profile not
found" test, so the limited-profile status is unreachable: the profile
branch of the cascade yields only valid or account-not-found. -/
theorem C9_no_limited_profile :
    (∀ p : UserProfile, 0 ≤ p.time_created →
      (hasValidProfile p = true ↔ profileNotFound p = false)) ∧
    (∀ (env : Env) (token : String) (n : Nat) (apiKey : String) (cInv : Bool),
      (∀ sid, 0 ≤ (env.profileOf sid).time_created) →
      (processToken env token n apiKey cInv).status ≠ "Limited Profile") := by
  refine ⟨hasValid_iff_not_notFound, ?_⟩
  intro env token n apiKey cInv hprof
  have hp : 0 ≤ (getUserProfile env (steamIdOf env token) apiKey).time_created :=
    getUserProfile_nonneg env (steamIdOf env token) apiKey hprof
  exact classifyStatus_ne_lp (jwtValidationOf env token) (steamIdOf env token)
    (getUserProfile env (steamIdOf env token) apiKey) hp

/-- Witness for C9 at a concrete line and oracle. -/
theorem C9_witness :
    (processToken trivEnv "a" 1 "k" false).status ≠ "Limited Profile" :=
  C9_no_limited_profile.2 trivEnv "a" 1 "k" false (fun _ => le_refl 0)

/-- Claim C10: a middle segment whose length is already a multiple of
four gets four padding characters in the username helper (computed as
4 - length % 4), making its decode fail so no username is returned; the
steam-id extraction helper pads the same way, so its JWT sub-path falls
through to the plain identifier scan; the main decoder pads only to the
next multiple of four and can decode the same segment. -/
theorem C10_padding_mismatch :
    (∀ (tok p : String), (jsSplit tok ".")[1]? = some p → p.data.length % 4 = 0 →
      extractUsernameFromJWT tok = none) ∧
    (∀ (tok p : String), (jsSplit tok ".")[1]? = some p → p.data.length % 4 = 0 →
      extractSteamIdFromToken tok = steamIdRegexResult tok) ∧
    ((validateJWTToken "x.eyJzdWIiOiI3NjU2MTE5ODEyMzQ1Njc4OSJ9.y" 0).is_valid = true ∧
      "eyJzdWIiOiI3NjU2MTE5ODEyMzQ1Njc4OSJ9".data.length % 4 = 0 ∧
      extractUsernameFromJWT "x.eyJzdWIiOiI3NjU2MTE5ODEyMzQ1Njc4OSJ9.y" = none) := by
  have hpad : ∀ (p : String), p.data.length % 4 = 0 →
      atobL ((p.data ++ List.replicate (4 - p.data.length % 4) '=').map b64urlNorm)
        = none := by
    intro p h4
    rw [h4, Nat.sub_zero]
    rw [show List.replicate 4 '=' = ['=', '=', '=', '='] from rfl]
    rw [List.map_append]
    rw [show (['=', '=', '=', '='].map b64urlNorm) = ['=', '=', '=', '='] from rfl]
    exact atobL_append_four_pad (p.data.map b64urlNorm)
  refine ⟨?_, ?_, by decide, by decide, by decide⟩
  · intro tok p h1 h4
    unfold extractUsernameFromJWT
    rw [h1]
    dsimp only
    rw [hpad p h4]
  · intro tok p h1 h4
    have hsp : (splitFirst '.' [] tok.data).isSome = true := by
      apply splitFirst_isSome_of_get1 '.' [] tok.data tok.data.length
      rw [show jsSplit tok "." =
        (jsSplitF '.' [] tok.data.length tok.data).map (fun l => (⟨l⟩ : String))
        from rfl] at h1
      rw [List.getElem?_map] at h1
      cases hx : (jsSplitF '.' [] tok.data.length tok.data)[1]? with
      | none => rw [hx] at h1; simp at h1
      | some q => simp [hx]
    have hInc : jsIncludes tok "." = true := hsp
    unfold extractSteamIdFromToken
    rw [if_pos hInc, h1]
    dsimp only
    rw [hpad p h4]

/-- Witness for C10 at a concrete segment of length four. -/
theorem C10_witness :
    extractUsernameFromJWT "a.AAAA.b" = none ∧
    extractSteamIdFromToken "a.AAAA.b" = steamIdRegexResult "a.AAAA.b" :=
  ⟨C10_padding_mismatch.1 "a.AAAA.b" "AAAA" (by decide) (by decide),
   C10_padding_mismatch.2.1 "a.AAAA.b" "AAAA" (by decide) (by decide)⟩

set_option maxHeartbeats 1000000 in
/-- Counterexample to C8 as stated: a present expiration claim of zero
with the clock past it leaves the flag false (the code treats a zero
claim as absent). -/
theorem C8_counterexample :
    (validateJWTToken "x.eyJzdWIiOiI3NjU2MTE5ODEyMzQ1Njc4OSIsImV4cCI6MH0.y" 100).is_expired
      = false ∧
    (validateJWTToken "x.eyJzdWIiOiI3NjU2MTE5ODEyMzQ1Njc4OSIsImV4cCI6MH0.y" 100).expires_at
      = none ∧
    (match decodeStage "x.eyJzdWIiOiI3NjU2MTE5ODEyMzQ1Njc4OSIsImV4cCI6MH0.y" with
     | Except.ok (p, _) => jsGet p "exp" = some (Json.num 0)
     | Except.error _ => False) ∧
    (100 : Int) > 0 :=
  ⟨by decide, by rfl, by rfl, by decide⟩

end SteamSpec
